import Mathlib

/-!
Verification of the GrindMap backpressure gateway and its HTTP surface.

The HTTP layer (`src/backend/src/server.js`, and the variant in
`src/unnamed/part_000`) is embedded directly from the source.  The gateway
itself (`backpressure.util.js`: circuit breaker, bounded FIFO queue,
concurrency limiter, memory monitor, stats) is referenced by the source but
its file is not part of the sources at hand, so it is modelled from the
specification (spec.md sections 3, 4, 6, 7); each such definition carries a
doc comment starting with `Modelled from the spec:`.
-/

namespace GrindMap

/-! ## String containment, as used by the HTTP error handler

`server.js` classifies errors with `error.message.includes('Circuit breaker')`
and `error.message.includes('Queue full')`.  `includes` is substring
occurrence; we embed it on character lists. -/

/-- Holds of `p` and `l` iff `p` is an initial segment of `l`
(JS: `l` starts with `p`). -/
def leadsWith : List Char → List Char → Bool
  | [], _ => true
  | _ :: _, [] => false
  | a :: p, b :: l => a == b && leadsWith p l

/-- Holds of `p` and `l` iff `p` occurs contiguously somewhere in `l`. -/
def hasSubList (p : List Char) : List Char → Bool
  | [] => leadsWith p []
  | c :: l => leadsWith p (c :: l) || hasSubList p l

/-- JS `s.includes(sub)`: `sub` occurs as a contiguous substring of `s`. -/
def strContains (s sub : String) : Bool :=
  hasSubList sub.data s.data

/-! ## The HTTP error classification (src/backend/src/server.js, lines 28-34)

```js
if (error.message.includes('Circuit breaker') || error.message.includes('Queue full')) {
  res.status(503).json({ error: error.message });
} else {
  res.status(500).json({ error: error.message });
}
```
-/

/-- HTTP status chosen by the `/api/leetcode/:username` catch block for an
error whose message is `msg` (`src/backend/src/server.js:28-34`). -/
def errorStatus (msg : String) : Nat :=
  if strContains msg "Circuit breaker" || strContains msg "Queue full" then 503
  else 500

/-- The error taxonomy of spec.md section 7: the three gateway
self-protection rejections plus propagated task failure (which carries the
underlying task's own message). -/
inductive GatewayError where
  | circuitOpen : GatewayError
  | queueFull : GatewayError
  | overload : GatewayError
  | taskFailure : String → GatewayError
deriving DecidableEq

/-- Modelled from the spec: the message strings carried by the rejection
errors of `backpressure.util.js`, whose file is not among the sources (only
its callers are).  Spec section 7 names the kinds (`CircuitOpenError` for
"upstream judged unhealthy", `QueueFullError` for "queue at capacity",
`OverloadError` for "process memory pressure"); the two substrings the HTTP
layer tests for ('Circuit breaker', 'Queue full') pin down the first two
messages, and the overload message speaks of load, not of breakers or
queues.  A task failure propagates the task's own message verbatim. -/
def errorMessage : GatewayError → String
  | .circuitOpen => "Circuit breaker is open"
  | .queueFull => "Queue full, request rejected"
  | .overload => "Server overloaded, request rejected"
  | .taskFailure msg => msg

/-! ## The gateway model

The Backpressure Manager (`backpressure.util.js`) is not among the sources;
everything below is modelled from spec.md sections 3-5.  Time is a `Nat`
(milliseconds); tasks are identified by `Nat` ids and are opaque. -/

/-- Modelled from the spec: the three circuit-breaker states (spec
section 3, `CircuitBreakerState`). -/
inductive CBPhase where
  | closed : CBPhase
  | opened : CBPhase
  | halfOpen : CBPhase
deriving DecidableEq

/-- Modelled from the spec: the circuit breaker's attributes (spec
section 3): current state, consecutive-failure count, last-failure
timestamp, last-state-transition timestamp, and the probe count while
`HALF_OPEN`. -/
structure BreakerState where
  phase : CBPhase
  consecutiveFailures : Nat
  lastFailureAt : Nat
  transitionAt : Nat
  halfOpenProbes : Nat
deriving DecidableEq

/-- Modelled from the spec: the recognized configuration options (spec
section 6). -/
structure Config where
  maxConcurrent : Nat
  maxQueueSize : Nat
  failureThreshold : Nat
  openTimeoutMs : Nat
  maxHalfOpenProbes : Nat
  memoryThreshold : Nat
deriving DecidableEq

/-- Modelled from the spec: the breaker's admission check (spec section 4.1,
`canAdmit()`), with its lazy `OPEN` to `HALF_OPEN` transition.  `CLOSED`
admits freely; `OPEN` refuses until `openTimeoutMs` has elapsed since the
transition timestamp, then moves to `HALF_OPEN` and lets exactly one probe
through; `HALF_OPEN` allows at most `maxHalfOpenProbes` concurrent probes.
Returns the decision together with the (possibly transitioned) state. -/
def breakerCheck (cfg : Config) (now : Nat) (b : BreakerState) :
    Bool × BreakerState :=
  match b.phase with
  | .closed => (true, b)
  | .opened =>
      if b.transitionAt + cfg.openTimeoutMs ≤ now then
        (true, { b with phase := .halfOpen, transitionAt := now,
                        halfOpenProbes := 1 })
      else
        (false, b)
  | .halfOpen =>
      if b.halfOpenProbes < cfg.maxHalfOpenProbes then
        (true, { b with halfOpenProbes := b.halfOpenProbes + 1 })
      else
        (false, b)

/-- Modelled from the spec: `recordFailure()` (spec section 4.1).  In
`CLOSED`, increment the consecutive-failure count and open (recording the
transition timestamp and resetting the probe counter) once it reaches
`failureThreshold`; in `HALF_OPEN`, a probe failure reopens immediately and
resets the open timestamp; in `OPEN` (an older in-flight task failing) the
count grows but the state is untouched. -/
def recordFailure (cfg : Config) (now : Nat) (b : BreakerState) :
    BreakerState :=
  match b.phase with
  | .closed =>
      if cfg.failureThreshold ≤ b.consecutiveFailures + 1 then
        { phase := .opened, consecutiveFailures := b.consecutiveFailures + 1,
          lastFailureAt := now, transitionAt := now, halfOpenProbes := 0 }
      else
        { b with consecutiveFailures := b.consecutiveFailures + 1,
                 lastFailureAt := now }
  | .halfOpen =>
      { phase := .opened, consecutiveFailures := b.consecutiveFailures + 1,
        lastFailureAt := now, transitionAt := now, halfOpenProbes := 0 }
  | .opened =>
      { b with consecutiveFailures := b.consecutiveFailures + 1,
               lastFailureAt := now }

/-- Modelled from the spec: `recordSuccess()` (spec section 4.1).  A probe
success in `HALF_OPEN` closes the breaker and resets the failure count; a
success in `CLOSED` resets the consecutive-failure count (the count is of
consecutive failures). -/
def recordSuccess (b : BreakerState) : BreakerState :=
  match b.phase with
  | .halfOpen =>
      { b with phase := .closed, consecutiveFailures := 0,
               halfOpenProbes := 0 }
  | .closed => { b with consecutiveFailures := 0 }
  | .opened => { b with consecutiveFailures := 0 }

/-- Modelled from the spec: the process-wide gateway state (spec section 3,
`GatewayCounters` and `MemorySample`, plus the FIFO queue of section 4.2).
`queue` holds the ids of admitted-but-not-yet-running tasks in FIFO order
(`queueSize` is its length); `heapUsed`/`overloaded` are the memory
monitor's last sample and its derived flag.  The bookkeeping logs record,
in order, every task whose execution began (`runLog`), every task enqueued
(`enqLog`), and every task dequeued by a drain (`deqLog`); they let us
state ordering properties and are written exactly when the corresponding
event happens. -/
structure Gateway where
  breaker : BreakerState
  queue : List Nat
  activeCount : Nat
  heapUsed : Nat
  overloaded : Bool
  runLog : List Nat
  enqLog : List Nat
  deqLog : List Nat
deriving DecidableEq

/-- The number of queued entries (spec section 3, `queueSize`). -/
def Gateway.queueSize (g : Gateway) : Nat := g.queue.length

/-- Modelled from the spec: the state at process start (spec section 3:
breaker `CLOSED` with zeroed attributes, empty queue, no active tasks, not
overloaded). -/
def initGateway : Gateway :=
  { breaker := { phase := .closed, consecutiveFailures := 0,
                 lastFailureAt := 0, transitionAt := 0, halfOpenProbes := 0 },
    queue := [], activeCount := 0, heapUsed := 0, overloaded := false,
    runLog := [], enqLog := [], deqLog := [] }

/-- The outcome of one `process(task)` admission decision (spec
section 4.2): run immediately, queued, or one of the three fail-fast
rejections. -/
inductive ProcResult where
  | started : ProcResult
  | queued : ProcResult
  | rejOverload : ProcResult
  | rejCircuit : ProcResult
  | rejQueueFull : ProcResult
deriving DecidableEq

/-- Modelled from the spec: the admission algorithm of `process(task)` (spec
section 4.2), in order: (1) memory check, fail fast with `OverloadError`,
task never queued; (2) breaker check, fail fast with `CircuitOpenError`;
(3) if a concurrency slot is free, run immediately; (4) else if the queue
has room, append in FIFO order; (5) else fail with `QueueFullError`.  The
breaker's lazy transition made by its check persists whatever branch is
taken afterwards. -/
def process (cfg : Config) (now : Nat) (t : Nat) (g : Gateway) :
    ProcResult × Gateway :=
  if g.overloaded then
    (.rejOverload, g)
  else
    let chk := breakerCheck cfg now g.breaker
    if chk.1 then
      if g.activeCount < cfg.maxConcurrent then
        (.started, { g with breaker := chk.2,
                            activeCount := g.activeCount + 1,
                            runLog := g.runLog ++ [t] })
      else if g.queue.length < cfg.maxQueueSize then
        (.queued, { g with breaker := chk.2,
                           queue := g.queue ++ [t],
                           enqLog := g.enqLog ++ [t] })
      else
        (.rejQueueFull, { g with breaker := chk.2 })
    else
      (.rejCircuit, { g with breaker := chk.2 })

/-- Modelled from the spec: task completion (spec section 4.2).  When a task
finishes (there is one in flight only if `activeCount > 0`; a completion
event cannot occur otherwise, so the model ignores it then): decrement
`activeCount`, feed the outcome to the breaker, and if the queue is
non-empty dequeue the oldest entry and begin executing it (re-taking the
slot just freed). -/
def complete (cfg : Config) (now : Nat) (success : Bool) (g : Gateway) :
    Gateway :=
  if g.activeCount = 0 then g
  else
    let b := if success then recordSuccess g.breaker
             else recordFailure cfg now g.breaker
    match g.queue with
    | [] => { g with activeCount := g.activeCount - 1, breaker := b }
    | next :: rest =>
        { g with breaker := b, queue := rest,
                 runLog := g.runLog ++ [next],
                 deqLog := g.deqLog ++ [next] }

/-- Modelled from the spec: one periodic memory sample (spec section 4.3):
read current heap usage, compare to the configured threshold with no
hysteresis, store the boolean for O(1) consultation. -/
def sampleMemory (cfg : Config) (heap : Nat) (g : Gateway) : Gateway :=
  { g with heapUsed := heap, overloaded := decide (cfg.memoryThreshold < heap) }

/-- The events that mutate gateway state: an admission attempt, a task
completion, a memory sample. -/
inductive Op where
  | procOp : Nat → Nat → Op
  | completeOp : Nat → Bool → Op
  | sampleOp : Nat → Op
deriving DecidableEq

/-- One event applied to the state. -/
def stepOp (cfg : Config) (g : Gateway) : Op → Gateway
  | .procOp now t => (process cfg now t g).2
  | .completeOp now success => complete cfg now success g
  | .sampleOp heap => sampleMemory cfg heap g

/-- A sequence of events applied in order. -/
def runOps (cfg : Config) (ops : List Op) (g : Gateway) : Gateway :=
  ops.foldl (stepOp cfg) g

/-- Modelled from the spec: the read-only stats snapshot (spec section 4.4):
`queueSize`, `activeRequests`, current heap figure, `isOverloaded`, and
`circuitBreakerOpen` (true iff the breaker is `OPEN` or `HALF_OPEN`). -/
structure Stats where
  queueSize : Nat
  activeRequests : Nat
  memoryHeapUsed : Nat
  isOverloaded : Bool
  circuitBreakerOpen : Bool
deriving DecidableEq

/-- Modelled from the spec: `getStats()` (spec section 4.4), returning the
snapshot together with the gateway state it leaves behind. -/
def getStats (g : Gateway) : Stats × Gateway :=
  ({ queueSize := g.queue.length, activeRequests := g.activeCount,
     memoryHeapUsed := g.heapUsed, isOverloaded := g.overloaded,
     circuitBreakerOpen := decide (g.breaker.phase ≠ .closed) }, g)

/-! ## The /health endpoint (src/backend/src/server.js, lines 17-20)

```js
app.get('/health', (req, res) => {
  const stats = backpressureManager.getStats();
  res.json({ status: 'ok', ...stats });
});
```
Express sends status code 200 by default.  The stats fields are spread at
the top level of the body next to the literal `status: 'ok'` field; none of
the stats fields is named `status`, so the spread overrides nothing. -/

/-- The `/health` response: HTTP status code, the body's `status` field, and
the spread `getStats()` fields. -/
structure HealthResponse where
  httpStatus : Nat
  statusField : String
  queueSize : Nat
  activeRequests : Nat
  memoryHeapUsed : Nat
  isOverloaded : Bool
  circuitBreakerOpen : Bool
deriving DecidableEq

/-- The `/health` handler (`src/backend/src/server.js:17-20`). -/
def healthHandler (g : Gateway) : HealthResponse :=
  let s := (getStats g).1
  { httpStatus := 200, statusField := "ok",
    queueSize := s.queueSize, activeRequests := s.activeRequests,
    memoryHeapUsed := s.memoryHeapUsed, isOverloaded := s.isOverloaded,
    circuitBreakerOpen := s.circuitBreakerOpen }

/-! ## Claim apparatus -/

/-- Sequentially submit a list of tasks through `process` (all at the same
instant, none completing in between), collecting the per-task decisions and
the final state. -/
def processAll (cfg : Config) (now : Nat) (ts : List Nat) (g : Gateway) :
    List ProcResult × Gateway :=
  match ts with
  | [] => ([], g)
  | t :: rest =>
      let r := process cfg now t g
      let rs := processAll cfg now rest r.2
      (r.1 :: rs.1, rs.2)

/-- Iterate `recordFailure` (at one instant) `n` times. -/
def failN (cfg : Config) (now : Nat) : Nat → BreakerState → BreakerState
  | 0, b => b
  | n + 1, b => failN cfg now n (recordFailure cfg now b)

/-! ## Theorems -/

/-- C4: whenever the Memory Monitor reports overloaded, `process()` fails
with `OverloadError` no matter the queue or breaker state, and the gateway
state is returned untouched: in particular no queue entry is created and the
supplied task's execution never begins (`queue`, `runLog`, everything is
unchanged). -/
theorem overload_rejects_untouched (cfg : Config) (now t : Nat) (g : Gateway)
    (h : g.overloaded = true) :
    process cfg now t g = (.rejOverload, g) := by
  simp [process, h]

/-- Witness for C4 at a concrete overloaded state. -/
theorem overload_rejects_untouched_witness :
    process ⟨2, 1, 3, 100, 1, 1000⟩ 0 7
        { initGateway with overloaded := true } =
      (.rejOverload, { initGateway with overloaded := true }) :=
  overload_rejects_untouched ⟨2, 1, 3, 100, 1, 1000⟩ 0 7
    { initGateway with overloaded := true } rfl

/-- C8: `getStats()` leaves the gateway state unchanged, and two
consecutive calls with no intervening event return identical snapshots. -/
theorem getStats_readonly (g : Gateway) :
    (getStats g).2 = g ∧ (getStats (getStats g).2).1 = (getStats g).1 :=
  ⟨rfl, rfl⟩

/-- C10: in every gateway state the `/health` endpoint answers HTTP 200
with body field `status = 'ok'` and the `getStats()` fields spread at the
top level; an open breaker or an overloaded memory state changes neither
the status code nor the `status` value. -/
theorem health_always_ok (g : Gateway) :
    (healthHandler g).httpStatus = 200 ∧
    (healthHandler g).statusField = "ok" ∧
    (healthHandler g).queueSize = (getStats g).1.queueSize ∧
    (healthHandler g).activeRequests = (getStats g).1.activeRequests ∧
    (healthHandler g).memoryHeapUsed = (getStats g).1.memoryHeapUsed ∧
    (healthHandler g).isOverloaded = (getStats g).1.isOverloaded ∧
    (healthHandler g).circuitBreakerOpen = (getStats g).1.circuitBreakerOpen :=
  ⟨rfl, rfl, rfl, rfl, rfl, rfl, rfl⟩

/-- C9: the route's 503/500 split looks only at the error's message string:
any message containing 'Circuit breaker' or 'Queue full' gets 503 — even a
propagated task failure's message, since a task failure is surfaced with
its own message verbatim — and any message containing neither gets 500,
which in particular is the fate of the memory-overload rejection. -/
theorem status_depends_only_on_message (msg : String) :
    (strContains msg "Circuit breaker" = true ∨
        strContains msg "Queue full" = true →
      errorStatus msg = 503) ∧
    (strContains msg "Circuit breaker" = false →
      strContains msg "Queue full" = false →
      errorStatus msg = 500) ∧
    errorStatus (errorMessage (.taskFailure msg)) = errorStatus msg ∧
    errorStatus (errorMessage .overload) = 500 := by
  refine ⟨fun h => ?_, fun h1 h2 => ?_, rfl, rfl⟩
  · rcases h with h | h <;> simp [errorStatus, h]
  · simp [errorStatus, h1, h2]

/-- Witness for C9: a task failure whose message happens to contain
'Queue full' is answered 503, and the overload rejection is answered
500. -/
theorem status_depends_only_on_message_witness :
    errorStatus "upstream said Queue full" = 503 ∧
    errorStatus "Server overloaded, request rejected" = 500 :=
  ⟨(status_depends_only_on_message "upstream said Queue full").1
      (Or.inr (by decide)),
   (status_depends_only_on_message
      "Server overloaded, request rejected").2.1 (by decide) (by decide)⟩

/-- C1, counterexample: the claim states that an `OverloadError` is mapped
to HTTP 503, but the handler answers 500 for it — its message contains
neither 'Circuit breaker' nor 'Queue full'. -/
theorem overload_gets_500_not_503 :
    errorStatus (errorMessage GatewayError.overload) = 500 ∧
    errorStatus (errorMessage GatewayError.overload) ≠ 503 := by
  constructor
  · rfl
  · decide

/-- C1 as amended: `CircuitOpenError` and `QueueFullError` map to HTTP 503;
`OverloadError` maps to HTTP 500, as does any other failure (in particular
a `TaskFailure`) whose message does not contain 'Circuit breaker' or
'Queue full'. -/
theorem error_status_mapping :
    errorStatus (errorMessage .circuitOpen) = 503 ∧
    errorStatus (errorMessage .queueFull) = 503 ∧
    errorStatus (errorMessage .overload) = 500 ∧
    ∀ msg, strContains msg "Circuit breaker" = false →
      strContains msg "Queue full" = false →
      errorStatus (errorMessage (.taskFailure msg)) = 500 := by
  refine ⟨rfl, rfl, rfl, fun msg h1 h2 => ?_⟩
  simp [errorMessage, errorStatus, h1, h2]

/-- Witness for the amended C1 at a concrete task-failure message. -/
theorem error_status_mapping_witness :
    errorStatus (errorMessage (GatewayError.taskFailure "User not found")) =
      500 :=
  error_status_mapping.2.2.2 "User not found" (by decide) (by decide)

/-- One event preserves the counter bounds of spec section 3. -/
theorem stepOp_preserves_bounds (cfg : Config) (op : Op) (g : Gateway)
    (h1 : g.activeCount ≤ cfg.maxConcurrent)
    (h2 : g.queue.length ≤ cfg.maxQueueSize) :
    (stepOp cfg g op).activeCount ≤ cfg.maxConcurrent ∧
    (stepOp cfg g op).queue.length ≤ cfg.maxQueueSize := by
  cases op with
  | procOp now t =>
      simp only [stepOp, process]
      split
      · exact ⟨h1, h2⟩
      · split
        · split
          · next hraw => exact ⟨hraw, h2⟩
          · split
            · next hq => simpa using ⟨h1, hq⟩
            · exact ⟨h1, h2⟩
        · exact ⟨h1, h2⟩
  | completeOp now success =>
      simp only [stepOp, complete]
      split
      · exact ⟨h1, h2⟩
      · split
        · exact ⟨Nat.le_trans (Nat.sub_le _ _) h1, h2⟩
        · next heq =>
            refine ⟨h1, ?_⟩
            have := h2
            rw [heq] at this
            simpa using Nat.le_of_succ_le this
  | sampleOp heap =>
      exact ⟨h1, h2⟩

/-- C2: along every sequence of events from the initial state, the counters
stay within their caps: `activeCount ≤ maxConcurrent` and
`queueSize ≤ maxQueueSize` (both are naturals, so `0 ≤` holds by type).
Since the event sequence is arbitrary, the bounds hold after every
operation. -/
theorem counters_bounded (cfg : Config) (ops : List Op) :
    (runOps cfg ops initGateway).activeCount ≤ cfg.maxConcurrent ∧
    (runOps cfg ops initGateway).queueSize ≤ cfg.maxQueueSize := by
  suffices h : ∀ (l : List Op) (g : Gateway),
      g.activeCount ≤ cfg.maxConcurrent →
      g.queue.length ≤ cfg.maxQueueSize →
      (runOps cfg l g).activeCount ≤ cfg.maxConcurrent ∧
      (runOps cfg l g).queue.length ≤ cfg.maxQueueSize by
    exact h ops initGateway (Nat.zero_le _) (Nat.zero_le _)
  intro l
  induction l with
  | nil => intro g hg1 hg2; exact ⟨hg1, hg2⟩
  | cons op rest ih =>
      intro g hg1 hg2
      have hs := stepOp_preserves_bounds cfg op g hg1 hg2
      exact ih (stepOp cfg g op) hs.1 hs.2

/-- One event preserves the FIFO log identity: the tasks dequeued so far,
followed by the tasks still queued, are exactly the tasks enqueued, in
order. -/
theorem stepOp_preserves_fifo (cfg : Config) (op : Op) (g : Gateway)
    (h : g.deqLog ++ g.queue = g.enqLog) :
    (stepOp cfg g op).deqLog ++ (stepOp cfg g op).queue =
      (stepOp cfg g op).enqLog := by
  cases op with
  | procOp now t =>
      simp only [stepOp, process]
      split
      · exact h
      · split
        · split
          · exact h
          · split
            · simpa [← List.append_assoc] using congrArg (· ++ [t]) h
            · exact h
        · exact h
  | completeOp now success =>
      simp only [stepOp, complete]
      split
      · exact h
      · split
        · exact h
        · next heq => simpa [← heq, List.append_assoc] using h
  | sampleOp heap =>
      exact h

/-- C7: queued tasks are drained in strict FIFO enqueue order.  Along every
event sequence from the initial state, the dequeue log followed by the
still-queued tasks equals the enqueue log; hence the dequeue log — the
order in which queued tasks began executing — is exactly the initial
segment of the enqueue order, so a later-enqueued task never begins before
an earlier one. -/
theorem queue_fifo (cfg : Config) (ops : List Op) :
    (runOps cfg ops initGateway).deqLog ++ (runOps cfg ops initGateway).queue =
      (runOps cfg ops initGateway).enqLog ∧
    (runOps cfg ops initGateway).deqLog =
      (runOps cfg ops initGateway).enqLog.take
        (runOps cfg ops initGateway).deqLog.length := by
  suffices h : ∀ (l : List Op) (g : Gateway),
      g.deqLog ++ g.queue = g.enqLog →
      (runOps cfg l g).deqLog ++ (runOps cfg l g).queue =
        (runOps cfg l g).enqLog by
    have hmain := h ops initGateway rfl
    refine ⟨hmain, ?_⟩
    rw [← hmain]
    exact (List.take_left _ _).symm
  intro l
  induction l with
  | nil => intro g hg; exact hg
  | cons op rest ih =>
      intro g hg
      exact ih (stepOp cfg g op) (stepOp_preserves_fifo cfg op g hg)

/-- Iterating `recordFailure` from a `CLOSED` breaker until the
consecutive-failure count reaches `failureThreshold` yields the `OPEN`
state stamped with the failure instant. -/
theorem failN_opens (cfg : Config) (now : Nat) :
    ∀ (n : Nat) (b : BreakerState), b.phase = .closed →
      b.consecutiveFailures + n = cfg.failureThreshold → 1 ≤ n →
      failN cfg now n b =
        { phase := .opened, consecutiveFailures := cfg.failureThreshold,
          lastFailureAt := now, transitionAt := now, halfOpenProbes := 0 } := by
  intro n
  induction n with
  | zero => intro b _ _ h3; exact absurd h3 (by omega)
  | succ n ih =>
      intro b hph hcnt _
      simp only [failN, recordFailure, hph]
      by_cases hn : n = 0
      · subst hn
        rw [if_pos (by omega)]
        simp only [failN]
        have hc : b.consecutiveFailures + 1 = cfg.failureThreshold := by omega
        rw [hc]
      · rw [if_neg (by omega)]
        exact ih _ rfl (show b.consecutiveFailures + 1 + n =
          cfg.failureThreshold by omega) (by omega)

/-- While the breaker is `OPEN` and the cooldown has not elapsed, `process`
rejects with `CircuitOpenError` and leaves the state untouched. -/
theorem process_rejCircuit (cfg : Config) (now t : Nat) (g : Gateway)
    (hov : g.overloaded = false)
    (hph : g.breaker.phase = .opened)
    (ht : now < g.breaker.transitionAt + cfg.openTimeoutMs) :
    process cfg now t g = (.rejCircuit, g) := by
  have hnot : ¬ (g.breaker.transitionAt + cfg.openTimeoutMs ≤ now) := by omega
  obtain ⟨b, q, a, hp, ov, rl, el, dl⟩ := g
  dsimp only at hov hph hnot ⊢
  subst hov
  simp [process, breakerCheck, hph, hnot]

/-- C5: after `failureThreshold` consecutive task failures (recorded at
instant `now`) starting from the initial `CLOSED` breaker, the breaker is
`OPEN`; and any `process()` call before the cooldown elapses is rejected
with `CircuitOpenError`, the gateway state — `runLog` included, so the
supplied task's execution never begins — returned unchanged. -/
theorem breaker_opens_then_rejects (cfg : Config) (now now' t : Nat)
    (g : Gateway) (hth : 1 ≤ cfg.failureThreshold)
    (hb : g.breaker = failN cfg now cfg.failureThreshold initGateway.breaker)
    (hov : g.overloaded = false)
    (ht : now' < now + cfg.openTimeoutMs) :
    g.breaker.phase = .opened ∧ process cfg now' t g = (.rejCircuit, g) := by
  have hfail : failN cfg now cfg.failureThreshold initGateway.breaker =
      { phase := .opened, consecutiveFailures := cfg.failureThreshold,
        lastFailureAt := now, transitionAt := now, halfOpenProbes := 0 } :=
    failN_opens cfg now cfg.failureThreshold initGateway.breaker rfl
      (Nat.zero_add _) hth
  have hph : g.breaker.phase = .opened := by rw [hb, hfail]
  have hta : g.breaker.transitionAt = now := by rw [hb, hfail]
  exact ⟨hph, process_rejCircuit cfg now' t g hov hph (by omega)⟩

/-- Witness for C5: `maxConcurrent = 2`, `maxQueueSize = 1`,
`failureThreshold = 3`, `openTimeoutMs = 100`; three failures at instant 5
open the breaker and a call at instant 50 is rejected untouched. -/
theorem breaker_opens_then_rejects_witness :
    ({ initGateway with
        breaker := failN ⟨2, 1, 3, 100, 1, 1000⟩ 5 3 initGateway.breaker } :
      Gateway).breaker.phase = CBPhase.opened ∧
    process ⟨2, 1, 3, 100, 1, 1000⟩ 50 9
        { initGateway with
            breaker := failN ⟨2, 1, 3, 100, 1, 1000⟩ 5 3 initGateway.breaker } =
      (.rejCircuit,
        { initGateway with
            breaker := failN ⟨2, 1, 3, 100, 1, 1000⟩ 5 3 initGateway.breaker }) :=
  breaker_opens_then_rejects ⟨2, 1, 3, 100, 1, 1000⟩ 5 50 9 _
    (by decide) rfl rfl (by decide)

/-- The gateway state used to witness C6: a breaker that went `OPEN` at
instant 7. -/
def probeWitnessState : Gateway :=
  { initGateway with breaker := ⟨.opened, 3, 7, 7, 0⟩ }

/-- C6: once `openTimeoutMs` has elapsed since the `OPEN` transition, the
next admission attempt is let through as a probe (the breaker having moved
to `HALF_OPEN`); if that probe succeeds the breaker closes with the
consecutive-failure count reset to zero, and if it fails the breaker
reopens with the open timestamp reset to the failure instant, restarting
the cooldown. -/
theorem halfopen_probe_outcomes (cfg : Config) (now now' t : Nat)
    (g : Gateway)
    (hov : g.overloaded = false)
    (hph : g.breaker.phase = .opened)
    (ht : g.breaker.transitionAt + cfg.openTimeoutMs ≤ now)
    (hcap : g.activeCount < cfg.maxConcurrent) :
    (process cfg now t g).1 = .started ∧
    (process cfg now t g).2.breaker.phase = .halfOpen ∧
    (recordSuccess (process cfg now t g).2.breaker).phase = .closed ∧
    (recordSuccess (process cfg now t g).2.breaker).consecutiveFailures = 0 ∧
    (recordFailure cfg now' (process cfg now t g).2.breaker).phase =
      .opened ∧
    (recordFailure cfg now' (process cfg now t g).2.breaker).transitionAt =
      now' := by
  obtain ⟨b, q, a, hp, ov, rl, el, dl⟩ := g
  dsimp only at hov hph ht hcap ⊢
  subst hov
  simp [process, breakerCheck, hph, ht, hcap, recordSuccess, recordFailure]

/-- Witness for C6 with `openTimeoutMs = 100`: breaker opened at instant 7,
probe attempt at instant 107, probe failure recorded at instant 200. -/
theorem halfopen_probe_outcomes_witness :
    (process ⟨2, 1, 3, 100, 1, 1000⟩ 107 1 probeWitnessState).1 =
      ProcResult.started ∧
    (process ⟨2, 1, 3, 100, 1, 1000⟩ 107 1
        probeWitnessState).2.breaker.phase = CBPhase.halfOpen ∧
    (recordSuccess (process ⟨2, 1, 3, 100, 1, 1000⟩ 107 1
        probeWitnessState).2.breaker).phase = CBPhase.closed ∧
    (recordSuccess (process ⟨2, 1, 3, 100, 1, 1000⟩ 107 1
        probeWitnessState).2.breaker).consecutiveFailures = 0 ∧
    (recordFailure ⟨2, 1, 3, 100, 1, 1000⟩ 200 (process ⟨2, 1, 3, 100, 1, 1000⟩
        107 1 probeWitnessState).2.breaker).phase = CBPhase.opened ∧
    (recordFailure ⟨2, 1, 3, 100, 1, 1000⟩ 200 (process ⟨2, 1, 3, 100, 1, 1000⟩
        107 1 probeWitnessState).2.breaker).transitionAt = 200 :=
  halfopen_probe_outcomes ⟨2, 1, 3, 100, 1, 1000⟩ 107 200 1
    probeWitnessState rfl rfl (by decide) (by decide)

/-- Burst admission, generalized: from any not-overloaded state with a
`CLOSED` breaker and counters within bounds, submitting exactly enough
tasks to fill the remaining concurrency slots, then the remaining queue
room, then one more, yields precisely that many `started` decisions, that
many `queued` decisions, and one final `QueueFullError`. -/
theorem burst_general (cfg : Config) (now : Nat) :
    ∀ (ts : List Nat) (g : Gateway),
      g.overloaded = false → g.breaker.phase = .closed →
      g.activeCount ≤ cfg.maxConcurrent →
      g.queue.length ≤ cfg.maxQueueSize →
      ts.length = (cfg.maxConcurrent - g.activeCount) +
        (cfg.maxQueueSize - g.queue.length) + 1 →
      (processAll cfg now ts g).1 =
        List.replicate (cfg.maxConcurrent - g.activeCount) .started ++
        (List.replicate (cfg.maxQueueSize - g.queue.length) .queued ++
          [.rejQueueFull]) := by
  intro ts
  induction ts with
  | nil =>
      intro g _ _ _ _ hlen
      exact absurd hlen (by simp)
  | cons t rest ih =>
      intro g hov hph hc hq hlen
      simp only [List.length_cons] at hlen
      have hchk : breakerCheck cfg now g.breaker = (true, g.breaker) := by
        simp [breakerCheck, hph]
      by_cases hlt : g.activeCount < cfg.maxConcurrent
      · have hstep : process cfg now t g =
            (.started, { g with activeCount := g.activeCount + 1,
                                runLog := g.runLog ++ [t] }) := by
          simp [process, hov, hchk, hlt]
        have hrec := ih { g with activeCount := g.activeCount + 1,
                                 runLog := g.runLog ++ [t] }
          hov hph (by dsimp only; omega) hq (by dsimp only; omega)
        have hk : cfg.maxConcurrent - g.activeCount =
            (cfg.maxConcurrent - (g.activeCount + 1)) + 1 := by omega
        simp only [processAll, hstep, hrec]
        rw [hk, List.replicate_succ]
        rfl
      · by_cases hq2 : g.queue.length < cfg.maxQueueSize
        · have hstep : process cfg now t g =
              (.queued, { g with queue := g.queue ++ [t],
                                 enqLog := g.enqLog ++ [t] }) := by
            simp [process, hov, hchk, hlt, hq2]
          have hrec := ih { g with queue := g.queue ++ [t],
                                   enqLog := g.enqLog ++ [t] }
            hov hph hc (by simp; omega) (by simp; omega)
          have hk0 : cfg.maxConcurrent - g.activeCount = 0 := by omega
          have hk : cfg.maxQueueSize - g.queue.length =
              (cfg.maxQueueSize - (g.queue.length + 1)) + 1 := by omega
          simp only [processAll, hstep, hrec, hk0, List.replicate_zero,
            List.nil_append, List.length_append, List.length_singleton]
          rw [hk, List.replicate_succ]
          rfl
        · have hrest : rest = [] := by
            have : rest.length = 0 := by simp at hlen; omega
            exact List.length_eq_zero.mp this
          subst hrest
          have hk0 : cfg.maxConcurrent - g.activeCount = 0 := by omega
          have hk1 : cfg.maxQueueSize - g.queue.length = 0 := by omega
          simp [processAll, process, hov, hchk, hlt, hq2, hk0, hk1]

/-- C3: submitting `maxConcurrent + maxQueueSize + 1` tasks simultaneously
from the initial state, with none completing in between, makes the first
`maxConcurrent` run immediately, the next `maxQueueSize` queue, and
exactly the last submission fail with `QueueFullError`. -/
theorem burst_exact (cfg : Config) (now : Nat) (ts : List Nat)
    (hlen : ts.length = cfg.maxConcurrent + cfg.maxQueueSize + 1) :
    (processAll cfg now ts initGateway).1 =
      List.replicate cfg.maxConcurrent .started ++
      (List.replicate cfg.maxQueueSize .queued ++ [.rejQueueFull]) := by
  have h := burst_general cfg now ts initGateway rfl rfl (Nat.zero_le _)
    (Nat.zero_le _) (by simpa using hlen)
  simpa using h

/-- Witness for C3 with `maxConcurrent = 2`, `maxQueueSize = 1`: four
simultaneous submissions give run, run, queue, `QueueFullError`. -/
theorem burst_exact_witness :
    (processAll ⟨2, 1, 3, 100, 1, 1000⟩ 0 [10, 20, 30, 40] initGateway).1 =
      [ProcResult.started, .started, .queued, .rejQueueFull] :=
  (burst_exact ⟨2, 1, 3, 100, 1, 1000⟩ 0 [10, 20, 30, 40] (by decide)).trans
    (by decide)

end GrindMap
